import Mathlib

/-!
Verification development for the node-red-contrib-barcode-reader native layer.

The embedding below translates the raw-object path of the image normalizer
(`IsValidImageObject`, `InputToMat`, `convertToMat`, `GetColorSpaceFromInput`
from barcode-engine/src/index.cpp) and the decoder / preprocessing adapters
(`decode_zbar`, `decode_zxing`, `preprocess_otsu` from src/decoder.cpp).

JavaScript values reaching the binding are modelled by `JVal`; machine `int`
arithmetic is modelled on `Int` with explicit 32-bit wrapping, and `size_t`
quantities live in `Nat` (conversions are made explicit).  External
collaborators (the ZBar / ZXing engines and the OpenCV primitives) appear as
parameters or as concrete models of the documented primitive.
-/

/-- One JavaScript value as seen through the N-API checks used by the code:
absent property, null-or-undefined, Buffer, number (already taken through
`Int32Value`), string, or any other value kind. -/
inductive JVal where
  | absent
  | null
  | buf (bytes : List Nat)
  | num (n : Int)
  | str (s : String)
  | other
  deriving DecidableEq, Repr

/-- `obj.Has(name)`: the property exists on the object. -/
def JVal.has : JVal → Bool
  | .absent => false
  | _ => true

/-- `val.IsUndefined() || val.IsNull()`. -/
def JVal.isNullish : JVal → Bool
  | .null => true
  | _ => false

/-- `val.IsBuffer()`. -/
def JVal.isBuffer : JVal → Bool
  | .buf _ => true
  | _ => false

/-- `val.IsNumber()`. -/
def JVal.isNumber : JVal → Bool
  | .num _ => true
  | _ => false

/-- `val.IsString()`. -/
def JVal.isString : JVal → Bool
  | .str _ => true
  | _ => false

/-- The raw image object: the six properties the normalizer reads. -/
structure RawObj where
  data : JVal
  width : JVal
  height : JVal
  dtype : JVal
  colorSpace : JVal
  channels : JVal
  deriving DecidableEq, Repr

/-- The canonical pixel matrix (`cv::Mat`, 8-bit unsigned, channel count
taken from the CV type): row-major byte buffer of length rows*cols*channels. -/
structure Mat where
  rows : Nat
  cols : Nat
  channels : Nat
  data : List Nat
  deriving DecidableEq, Repr

/-- `cv::Mat::total()` — number of pixels. -/
def Mat.total (m : Mat) : Nat := m.rows * m.cols

/-- `cv::Mat::empty()`. -/
def Mat.empty (m : Mat) : Bool := m.total == 0

/-- The empty `cv::Mat()` (type CV_8UC1). -/
def emptyMat : Mat := ⟨0, 0, 1, []⟩

/-- Two's-complement wrap of an integer into the 32-bit signed range,
modelling C `int` arithmetic results and `Napi::Number::Int32Value()`. -/
def int32wrap (n : Int) : Int :=
  if n % 4294967296 < 2147483648 then n % 4294967296 else n % 4294967296 - 4294967296

/-- Conversion of a C `int` value to `size_t` (64-bit, modular). -/
def toSizeT (n : Int) : Nat := (n % 18446744073709551616).toNat

/-- `cv::cvtColor(..., COLOR_RGB2BGR)` on a tightly packed 3-channel buffer:
swap the first and third byte of every pixel. -/
def swapRB3 : List Nat → List Nat
  | r :: g :: b :: rest => b :: g :: r :: swapRB3 rest
  | l => l

/-- `cv::cvtColor(..., COLOR_RGBA2BGRA)` on a tightly packed 4-channel buffer:
swap the first and third byte of every pixel, keep the alpha byte. -/
def swapRB4 : List Nat → List Nat
  | r :: g :: b :: a :: rest => b :: g :: r :: a :: swapRB4 rest
  | l => l

/-- `IsValidImageObject` from index.cpp: presence, nullness and type checks,
in source order, returning the error message on failure. -/
def IsValidImageObject (o : RawObj) : Except String Unit :=
  if !o.data.has then .error ("Missing required property 'data'")
  else if !o.width.has then .error ("Missing required property 'width'")
  else if !o.height.has then .error ("Missing required property 'height'")
  else if o.data.isNullish then .error ("Property 'data' is null or undefined")
  else if o.width.isNullish then .error ("Property 'width' is null or undefined")
  else if o.height.isNullish then .error ("Property 'height' is null or undefined")
  else if !o.data.isBuffer then .error ("Property 'data' must be a Buffer")
  else if !o.width.isNumber then .error ("Property 'width' must be a number")
  else if !o.height.isNumber then .error ("Property 'height' must be a number")
  else if o.dtype.has && !o.dtype.isNullish && !o.dtype.isString then
    .error ("Property 'dtype' must be a string")
  else if o.colorSpace.has && !o.colorSpace.isNullish && !o.colorSpace.isString then
    .error ("Property 'colorSpace' must be a string")
  else if o.channels.has && !o.channels.isNullish
      && !(o.channels.isNumber || o.channels.isString) then
    .error ("Property 'channels' must be a number or string")
  else .ok ()

/-- The dtype validation step of `InputToMat` (lines 140-146): when `dtype`
is present it is read as a string (a present null value makes the N-API
string read throw) and must be exactly "uint8". -/
def dtypeCheck : JVal → Except String Unit
  | .absent => .ok ()
  | .str s =>
      if s = ("uint8") then .ok ()
      else .error (("Unsupported dtype: ") ++ s ++ (". Only 'uint8' is currently supported."))
  | _ => .error ("A string was expected")

/-- Channel count for a declared colorSpace string (lines 157-169). -/
def csToChannels (cs : String) : Option Nat :=
  if cs = ("GRAY") then some 1
  else if cs = ("RGB") ∨ cs = ("BGR") then some 3
  else if cs = ("RGBA") ∨ cs = ("BGRA") then some 4
  else none

/-- The capacity-exceeded message (lines 177-178). -/
def capacityMsg (expectedBytes : Nat) : String :=
  ("Image data too large: ") ++ toString expectedBytes ++ (" bytes (max: 524288000 bytes)")

/-- The data-length mismatch message of the colorSpace branch (lines 183-185). -/
def mismatchMsg (expectedBytes : Nat) (width height : Int) (channels : Nat) (len : Nat) : String :=
  ("Data length mismatch: expected ") ++ toString expectedBytes ++ (" bytes (")
    ++ toString width ++ ("x") ++ toString height ++ ("x") ++ toString channels
    ++ ("), got ") ++ toString len ++ (" bytes")

/-- The internal Mat-size mismatch message (lines 261-262). -/
def internalMsg (matDataSize len : Nat) : String :=
  ("Internal error: Mat data size (") ++ toString matDataSize
    ++ (") doesn't match buffer length (") ++ toString len ++ (")")

/-- The colorSpace strategy of `InputToMat` (lines 152-188): map the
declared colorSpace to a channel count, compute
`expectedBytes = width * height * channels` in C `int` arithmetic (then
converted to `size_t`), enforce the 500 MB cap, and require the buffer
length to equal the expected byte count exactly. -/
def format1 (dataLen : Nat) (width height : Int) (cs : String) : Except String (Nat × String) :=
  match csToChannels cs with
  | none =>
      .error (("Unsupported colorSpace: ") ++ cs
        ++ (". Supported values: GRAY, RGB, BGR, RGBA, BGRA"))
  | some c =>
      if toSizeT (int32wrap (width * height * (c : Int))) > 524288000 then
        .error (capacityMsg (toSizeT (int32wrap (width * height * (c : Int)))))
      else if dataLen ≠ toSizeT (int32wrap (width * height * (c : Int))) then
        .error (mismatchMsg (toSizeT (int32wrap (width * height * (c : Int)))) width height c dataLen)
      else .ok (c, cs)

/-- The numeric-channels strategy (lines 192-212): only 1, 3, 4 accepted,
with the platform default order assumption; no capacity or length check
happens in this branch. -/
def format2num (chRaw : Int) : Except String (Nat × String) :=
  if int32wrap chRaw = 1 then .ok (1, ("GRAY"))
  else if int32wrap chRaw = 3 then .ok (3, ("RGB"))
  else if int32wrap chRaw = 4 then .ok (4, ("RGBA"))
  else .error (("Unsupported channel count: ") ++ toString (int32wrap chRaw))

/-- The inferred-from-data-length strategy (lines 216-247): channel count is
the (size_t) quotient `data.length / (width*height)` converted to `int`;
non-exact division or a quotient outside 1/3/4 is rejected. -/
def format3 (dataLen : Nat) (width height : Int) : Except String (Nat × String) :=
  if toSizeT (int32wrap (width * height)) = 0 then
    .error ("Invalid image dimensions: width and height must be > 0")
  else if dataLen % toSizeT (int32wrap (width * height)) ≠ 0 then
    .error (("Cannot infer channels: data.length (") ++ toString dataLen
      ++ (") is not divisible by width*height (")
      ++ toString (toSizeT (int32wrap (width * height))) ++ (")"))
  else if int32wrap ((dataLen / toSizeT (int32wrap (width * height)) : Nat) : Int) = 1 then
    .ok (1, ("GRAY"))
  else if int32wrap ((dataLen / toSizeT (int32wrap (width * height)) : Nat) : Int) = 3 then
    .ok (3, ("RGB"))
  else if int32wrap ((dataLen / toSizeT (int32wrap (width * height)) : Nat) : Int) = 4 then
    .ok (4, ("RGBA"))
  else
    .error (("Cannot determine default colorSpace for ")
      ++ toString (int32wrap ((dataLen / toSizeT (int32wrap (width * height)) : Nat) : Int))
      ++ (" channels"))

/-- Format disambiguation of `InputToMat` (lines 152-248): the three
strategies consulted in source priority order.  When a string or null
`channels` value is present the numeric branch body is skipped and the
defaults (CV_8UC3, empty colorSpace label) survive; a present-but-null
colorSpace makes the N-API string read throw. -/
def resolveFormat (dataLen : Nat) (width height : Int) (colorSpace channels : JVal) :
    Except String (Nat × String) :=
  match colorSpace with
  | .str cs => format1 dataLen width height cs
  | .absent =>
      match channels with
      | .num chRaw => format2num chRaw
      | .absent => format3 dataLen width height
      | _ => .ok (3, (""))
  | _ => .error ("A string was expected")

/-- Mat creation, the internal size check, the defensive copy and the final
canonicalizing channel permutation of `InputToMat` (lines 250-279). -/
def finishMat (dataBuf : List Nat) (width height : Int) (matChannels : Nat) (cs : String) :
    Except String Mat :=
  if height.toNat * width.toNat = 0 then
    .error (("Failed to create Mat with dimensions ") ++ toString width ++ ("x") ++ toString height)
  else if height.toNat * width.toNat * matChannels ≠ dataBuf.length then
    .error (internalMsg (height.toNat * width.toNat * matChannels) dataBuf.length)
  else if cs = ("RGB") then .ok ⟨height.toNat, width.toNat, matChannels, swapRB3 dataBuf⟩
  else if cs = ("RGBA") then .ok ⟨height.toNat, width.toNat, matChannels, swapRB4 dataBuf⟩
  else .ok ⟨height.toNat, width.toNat, matChannels, dataBuf⟩

/-- Continuation of `InputToMat` after format disambiguation: propagate a
strategy error, else build the Mat. -/
def applyFormat (dataBuf : List Nat) (width height : Int)
    (r : Except String (Nat × String)) : Except String Mat :=
  match r with
  | .error e => .error e
  | .ok (matChannels, cs) => finishMat dataBuf width height matChannels cs

/-- The raw-object body of `InputToMat` after validation and field
extraction: geometry checks, dtype check, format disambiguation, Mat
construction. -/
def rawToMat (dataBuf : List Nat) (width height : Int) (dtype colorSpace channels : JVal) :
    Except String Mat :=
  if width ≤ 0 ∨ height ≤ 0 then
    .error (("Width and height must be positive numbers (width: ") ++ toString width
      ++ (", height: ") ++ toString height ++ (")"))
  else if width > 32768 ∨ height > 32768 then
    .error ("Image dimensions too large (max: 32768)")
  else
    match dtypeCheck dtype with
    | .error e => .error e
    | .ok _ =>
        applyFormat dataBuf width height
          (resolveFormat dataBuf.length width height colorSpace channels)

/-- `InputToMat` on a raw image object (index.cpp lines 110-280): validate
the object, extract the fields (`Int32Value` conversions made explicit) and
run the checked pipeline.  Errors carry the exact message the code builds. -/
def InputToMat (o : RawObj) : Except String Mat :=
  match IsValidImageObject o with
  | .error e => .error (("Invalid image object: ") ++ e)
  | .ok _ =>
      match o.data, o.width, o.height with
      | .buf dataBuf, .num wRaw, .num hRaw =>
          rawToMat dataBuf (int32wrap wRaw) (int32wrap hRaw) o.dtype o.colorSpace o.channels
      | _, _, _ => .error ("Invalid image object: internal")

/-- `GetColorSpaceFromInput` (lines 500-517): declared colorSpace string if
present, else inferred from the Mat channel count with the platform default
assumptions. -/
def GetColorSpaceFromInput (o : RawObj) (m : Mat) : String :=
  match o.colorSpace with
  | .str s => s
  | .absent =>
      if m.channels = 1 then ("GRAY")
      else if m.channels = 3 then ("RGB")
      else if m.channels = 4 then ("RGBA")
      else ("RGB")
  | _ => ("")

/-- `ExtractChannelOrder` (lines 474-477): find the first underscore; when
none, the whole string, else everything after it.  (Defined in the source
but not called on the raw-object normalization path.) -/
def ExtractChannelOrder (chFull : String) : String :=
  match chFull.data.dropWhile (fun c => c ≠ ('_')) with
  | [] => chFull
  | _ :: rest => ⟨rest⟩

/-- The raw image object produced by `MatToRawJS` (lines 480-497). -/
structure RawOut where
  width : Nat
  height : Nat
  colorSpace : String
  dtype : String
  data : List Nat
  deriving DecidableEq, Repr

/-- `MatToRawJS` (lines 480-497): serialize a Mat with a channel-order label. -/
def MatToRawJS (m : Mat) (order : String) : RawOut :=
  ⟨m.cols, m.rows, order, ("uint8"), m.data⟩

/-- `convertToMat` (lines 519-563) on a raw image object: normalize, detect
the channel order from the input object, and re-serialize. -/
def convertToMat (o : RawObj) : Except String RawOut :=
  match InputToMat o with
  | .error e => .error e
  | .ok m => .ok (MatToRawJS m (GetColorSpaceFromInput o m))

/-!  Decoder adapters (src/decoder.cpp).  The recognition engines are external
collaborators: each adapter is parameterized by the detection list the engine
returns for the scanned image. -/

/-- A native ZBar symbol: type name, payload, and the four location points
`get_location_x/y(0..3)`. -/
structure NativeSymbol where
  sType : String
  sData : String
  p0 : Int × Int
  p1 : Int × Int
  p2 : Int × Int
  p3 : Int × Int
  deriving DecidableEq, Repr

/-- A native ZXing result: format name, text, and the position point list
(native order topLeft, topRight, bottomRight, bottomLeft). -/
structure ZxResult where
  format : String
  text : String
  position : List (Int × Int)
  deriving DecidableEq, Repr

/-- The labelled corner points `x1..x4 / y1..y4` of one emitted detection. -/
structure LabeledPoints where
  x1 : Int
  y1 : Int
  x2 : Int
  y2 : Int
  x3 : Int
  y3 : Int
  x4 : Int
  y4 : Int
  deriving DecidableEq, Repr

/-- The ZBar adapter's label assignment (decoder.cpp lines 71-78):
x3 ← location 0, x4 ← location 1, x1 ← location 2, x2 ← location 3. -/
def zbarLabelPoints (s : NativeSymbol) : LabeledPoints :=
  ⟨s.p2.1, s.p2.2, s.p3.1, s.p3.2, s.p0.1, s.p0.2, s.p1.1, s.p1.2⟩

/-- The ZXing adapter's label assignment (decoder.cpp lines 155-170): for a
position list of at least four points (native order topLeft, topRight,
bottomRight, bottomLeft) set x3 ← position 3, x4 ← position 2,
x1 ← position 1, x2 ← position 0; otherwise all coordinates stay 0. -/
def zxingLabelPoints (position : List (Int × Int)) : LabeledPoints :=
  match position with
  | q0 :: q1 :: q2 :: q3 :: _ =>
      ⟨q1.1, q1.2, q0.1, q0.2, q3.1, q3.2, q2.1, q2.2⟩
  | _ => ⟨0, 0, 0, 0, 0, 0, 0, 0⟩

/-- The `"points": {...}` fragment shared by both adapters. -/
def pointsJson (p : LabeledPoints) : String :=
  ("\"points\": \x7b\"x1\": ") ++ toString p.x1 ++ (", \"y1\": ") ++ toString p.y1
    ++ (", \"x2\": ") ++ toString p.x2 ++ (", \"y2\": ") ++ toString p.y2
    ++ (", \"x3\": ") ++ toString p.x3 ++ (", \"y3\": ") ++ toString p.y3
    ++ (", \"x4\": ") ++ toString p.x4 ++ (", \"y4\": ") ++ toString p.y4
    ++ ("\x7d")

/-- One ZBar detection object as serialized by decode_zbar (lines 92-102). -/
def zbarObjJson (s : NativeSymbol) : String :=
  ("\x7b\"type\": \"") ++ s.sType ++ ("\", \"data\": \"") ++ s.sData ++ ("\", ")
    ++ pointsJson (zbarLabelPoints s) ++ ("\x7d")

/-- One ZXing detection object as serialized by decode_zxing (lines 172-182). -/
def zxObjJson (r : ZxResult) : String :=
  ("\x7b\"type\": \"") ++ r.format ++ ("\", \"data\": \"") ++ r.text ++ ("\", ")
    ++ pointsJson (zxingLabelPoints r.position) ++ ("\x7d")

/-- The structural error record both decoders return for a non-grayscale
matrix (decoder.cpp lines 46-48 and 119-121). -/
def grayscaleErrJson : String :=
  ("\x7b\"error\": \"Expected grayscale image (1 channel)\"\x7d")

/-- The empty result record. -/
def emptyResultsJson : String := ("\x7b\"results\": []\x7d")

/-- `decode_zbar` (decoder.cpp lines 38-108), parameterized by the symbol
list the ZBar scanner finds: empty image → empty results; non-grayscale →
structural error; otherwise the detections serialized in a comma-separated
results array (the source builds this by appending a trailing comma per
element and popping the last character). -/
def decode_zbar (symbols : List NativeSymbol) (grayscale : Mat) : String :=
  if grayscale.empty then emptyResultsJson
  else if grayscale.channels ≠ 1 then grayscaleErrJson
  else ("\x7b\"results\": [") ++ String.intercalate (",") (symbols.map zbarObjJson) ++ ("]\x7d")

set_option linter.unusedVariables false in
/-- `decode_zxing` (decoder.cpp lines 111-187), parameterized by the result
list the ZXing engine returns (`tryHarder` only tunes the engine hints):
empty image → empty results; non-grayscale → structural error; otherwise the
comma-separated results array. -/
def decode_zxing (results : List ZxResult) (grayscale : Mat) (tryHarder : Bool) : String :=
  if grayscale.empty then emptyResultsJson
  else if grayscale.channels ≠ 1 then grayscaleErrJson
  else ("\x7b\"results\": [") ++ String.intercalate (",") (results.map zxObjJson) ++ ("]\x7d")

/-!  Preprocessing adapters (src/decoder.cpp lines 190-263).  The OpenCV
primitives (grayscale conversion, histogram equalization, Otsu threshold)
are external collaborators; they are modelled here by their documented
fixed-point algorithms. -/

/-- OpenCV fixed-point BGR→gray: (B*1868 + G*9617 + R*4899 + 2^13) >> 14. -/
def grayOfPixel (b g r : Nat) : Nat := (b * 1868 + g * 9617 + r * 4899 + 8192) / 16384

/-- `COLOR_BGR2GRAY` over a packed 3-channel buffer. -/
def gray3 : List Nat → List Nat
  | b :: g :: r :: rest => grayOfPixel b g r :: gray3 rest
  | _ => []

/-- `COLOR_BGRA2GRAY` over a packed 4-channel buffer (alpha ignored). -/
def gray4 : List Nat → List Nat
  | b :: g :: r :: _ :: rest => grayOfPixel b g r :: gray4 rest
  | _ => []

/-- The grayscale-conversion step shared by the three preprocessors
(channels 1 → clone, 3 → BGR2GRAY, 4 → BGRA2GRAY, else unsupported). -/
def grayData (m : Mat) : Option (List Nat) :=
  if m.channels = 1 then some m.data
  else if m.channels = 3 then some (gray3 m.data)
  else if m.channels = 4 then some (gray4 m.data)
  else none

/-- `cv::equalizeHist`: histogram, first occupied bin as the zero point,
cumulative counts scaled to 0..255 (rounded); a constant image maps to that
constant. -/
def equalizeHist (data : List Nat) : List Nat :=
  let n := data.length
  let h : Nat → Nat := fun v => data.count v
  let i0 := (((List.range 256).find? (fun i => h i ≠ 0)).getD 0)
  if h i0 = n then data.map (fun _ => i0)
  else
    let d := n - h i0
    let cdf : Nat → Nat := fun v => (((List.range' (i0 + 1) (v - i0)).map h).sum)
    data.map (fun v => min 255 ((cdf v * 255 * 2 + d) / (2 * d)))

/-- The Otsu between-class separation score at threshold t, as a fraction
(numerator, denominator) to stay in exact arithmetic. -/
def otsuScore (data : List Nat) (t : Nat) : Nat × Nat :=
  let w0 := data.countP (fun v => v ≤ t)
  let s0 := (data.filter (fun v => v ≤ t)).sum
  let w1 := data.length - w0
  let s1 := data.sum - s0
  ((((s0 * w1 : Int) - (s1 * w0 : Int)) ^ 2).toNat, w0 * w1)

/-- Whether score a is strictly better than score b (cross-multiplied). -/
def scoreBetter (a b : Nat × Nat) : Bool := a.1 * b.2 > b.1 * a.2

/-- The Otsu global threshold: the 0..255 threshold maximizing the
between-class separation (first maximizer kept). -/
def otsuThreshold (data : List Nat) : Nat :=
  (List.range 256).foldl
    (fun best t => if scoreBetter (otsuScore data t) (otsuScore data best) then t else best) 0

/-- `cv::threshold(..., maxval, THRESH_BINARY)`: each value strictly above
the threshold becomes maxval, every other value becomes 0. -/
def thresholdBinary (data : List Nat) (t maxval : Nat) : List Nat :=
  data.map (fun v => if v > t then maxval else 0)

/-- `preprocess_otsu` (decoder.cpp lines 238-263): grayscale, histogram
equalization, then binary thresholding at the Otsu threshold; empty or
unsupported-channel input yields the empty Mat. -/
def preprocess_otsu (m : Mat) : Mat :=
  if m.empty then emptyMat
  else
    match grayData m with
    | none => emptyMat
    | some g =>
        let histEq := equalizeHist g
        ⟨m.rows, m.cols, 1, thresholdBinary histEq (otsuThreshold histEq) 255⟩

/-!  Helper predicates and reduction lemmas shared by the claim theorems. -/

/-- Values the structural validation accepts for the optional string fields
(`dtype`, `colorSpace`): absent, null, or a string. -/
def strLike : JVal → Bool
  | .absent => true
  | .null => true
  | .str _ => true
  | _ => false

/-- Values the structural validation accepts for `channels`: absent, null,
number, or string. -/
def chLike : JVal → Bool
  | .absent => true
  | .null => true
  | .num _ => true
  | .str _ => true
  | _ => false

lemma isValid_ok (d : List Nat) (w h : Int) (dt cs ch : JVal)
    (hdt : strLike dt = true) (hcs : strLike cs = true) (hch : chLike ch = true) :
    IsValidImageObject ⟨.buf d, .num w, .num h, dt, cs, ch⟩ = .ok () := by
  cases dt <;> cases cs <;> cases ch <;>
    simp_all [IsValidImageObject, strLike, chLike, JVal.has, JVal.isNullish,
      JVal.isBuffer, JVal.isNumber, JVal.isString]

lemma int32wrap_eq_self {n : Int} (h1 : -2147483648 ≤ n) (h2 : n < 2147483648) :
    int32wrap n = n := by
  unfold int32wrap; split <;> omega

lemma toSizeT_eq_toNat {n : Int} (h1 : 0 ≤ n) (h2 : n < 18446744073709551616) :
    toSizeT n = n.toNat := by
  unfold toSizeT
  rw [Int.emod_eq_of_lt h1 h2]

lemma inputToMat_checked (d : List Nat) (w h : Int) (dt cs ch : JVal)
    (hdt : strLike dt = true) (hcs : strLike cs = true) (hch : chLike ch = true) :
    InputToMat ⟨.buf d, .num w, .num h, dt, cs, ch⟩ =
      rawToMat d (int32wrap w) (int32wrap h) dt cs ch := by
  unfold InputToMat
  rw [isValid_ok d w h dt cs ch hdt hcs hch]

lemma rawToMat_pass (d : List Nat) (w h : Int) (dt cs ch : JVal)
    (hw0 : 0 < w) (hw : w ≤ 32768) (hh0 : 0 < h) (hh : h ≤ 32768)
    (hdt : dtypeCheck dt = .ok ()) :
    rawToMat d w h dt cs ch = applyFormat d w h (resolveFormat d.length w h cs ch) := by
  unfold rawToMat
  rw [if_neg (by omega), if_neg (by omega), hdt]

lemma applyFormat_ok (d : List Nat) (w h : Int) (mc : Nat) (l : String) :
    applyFormat d w h (.ok (mc, l)) = finishMat d w h mc l := rfl

lemma applyFormat_error (d : List Nat) (w h : Int) (e : String) :
    applyFormat d w h (.error e) = .error e := rfl

lemma resolveFormat_str (L : Nat) (w h : Int) (cs : String) (ch : JVal) :
    resolveFormat L w h (.str cs) ch = format1 L w h cs := rfl

lemma resolveFormat_numch (L : Nat) (w h : Int) (n : Int) :
    resolveFormat L w h .absent (.num n) = format2num n := rfl

lemma resolveFormat_infer (L : Nat) (w h : Int) :
    resolveFormat L w h .absent .absent = format3 L w h := rfl

lemma finishMat_pass (d : List Nat) (w h : Int) (mc : Nat) (cs : String)
    (hw0 : 0 < w) (hh0 : 0 < h) (hlen : h.toNat * w.toNat * mc = d.length) :
    finishMat d w h mc cs =
      if cs = ("RGB") then .ok ⟨h.toNat, w.toNat, mc, swapRB3 d⟩
      else if cs = ("RGBA") then .ok ⟨h.toNat, w.toNat, mc, swapRB4 d⟩
      else .ok ⟨h.toNat, w.toNat, mc, d⟩ := by
  unfold finishMat
  rw [if_neg (Nat.mul_ne_zero (by omega) (by omega)), if_neg (by simp [hlen])]

lemma swapRB3_length (l : List Nat) : (swapRB3 l).length = l.length := by
  induction l using swapRB3.induct <;> simp_all [swapRB3]

lemma swapRB4_length (l : List Nat) : (swapRB4 l).length = l.length := by
  induction l using swapRB4.induct <;> simp_all [swapRB4]

/-- C7: for every accepted 3-channel raw descriptor declaring
`colorSpace = "RGB"`, normalization produces the canonical matrix whose
bytes are the input bytes with each pixel's first and third channel
swapped (RGB→BGR). -/
theorem C7_rgb_swap (d : List Nat) (w h : Int) (dt ch : JVal)
    (hw0 : 0 < w) (hw : w ≤ 32768) (hh0 : 0 < h) (hh : h ≤ 32768)
    (hdt : dtypeCheck dt = .ok ()) (hch : chLike ch = true)
    (hcap : w * h * 3 ≤ 524288000)
    (hlen : (d.length : Int) = w * h * 3) :
    InputToMat ⟨.buf d, .num w, .num h, dt, .str ("RGB"), ch⟩ =
      .ok ⟨h.toNat, w.toNat, 3, swapRB3 d⟩ := by
  have hdt' : strLike dt = true := by cases dt <;> simp_all [dtypeCheck, strLike]
  have hprod : 0 < w * h * 3 := by positivity
  rw [inputToMat_checked d w h dt (.str ("RGB")) ch hdt' rfl hch,
      int32wrap_eq_self (by omega) (by omega), int32wrap_eq_self (by omega) (by omega),
      rawToMat_pass d w h dt (.str ("RGB")) ch hw0 hw hh0 hh hdt]
  have hres : resolveFormat d.length w h (.str ("RGB")) ch = .ok (3, ("RGB")) := by
    show format1 d.length w h ("RGB") = .ok (3, ("RGB"))
    unfold format1
    simp only [show csToChannels ("RGB") = some 3 from by decide, Nat.cast_ofNat]
    rw [int32wrap_eq_self (by omega) (by omega), toSizeT_eq_toNat (by omega) (by omega)]
    rw [if_neg (by omega), if_neg (by omega)]
  rw [hres]
  have hlen' : h.toNat * w.toNat * 3 = d.length := by
    zify
    rw [Int.toNat_of_nonneg (by omega : (0:Int) ≤ h), Int.toNat_of_nonneg (by omega : (0:Int) ≤ w)]
    rw [hlen]; ring
  show finishMat d w h 3 ("RGB") = _
  rw [finishMat_pass d w h 3 ("RGB") hw0 hh0 hlen']
  simp

/-- C7 witness: the 1×1×3 descriptor with colorSpace "RGB" and bytes
[10,20,30] normalizes to canonical bytes [30,20,10]. -/
theorem C7_rgb_swap_witness :
    InputToMat ⟨.buf [10, 20, 30], .num 1, .num 1, .absent, .str ("RGB"), .absent⟩ =
      .ok ⟨(1 : Int).toNat, (1 : Int).toNat, 3, swapRB3 [10, 20, 30]⟩ :=
  C7_rgb_swap [10, 20, 30] 1 1 .absent .absent (by decide) (by decide) (by decide)
    (by decide) rfl rfl (by decide) (by decide)

lemma toNat_prod (w h : Int) (c : Nat) (hw : 0 ≤ w) (hh : 0 ≤ h) :
    ((h.toNat * w.toNat * c : Nat) : Int) = w * h * c := by
  push_cast
  rw [Int.toNat_of_nonneg hh, Int.toNat_of_nonneg hw]
  ring

/-- C1 counterexample: the 1×1×3 raw descriptor declaring RGB round-trips
through Convert with its bytes permuted to BGR order — the returned data
bytes do not equal the input bytes, and the attached label is the declared
"RGB", not the order of the bytes actually returned. -/
theorem C1_counterexample :
    convertToMat ⟨.buf [10, 20, 30], .num 1, .num 1, .absent, .str ("RGB"), .absent⟩ =
      .ok ⟨1, 1, ("RGB"), ("uint8"), [30, 20, 10]⟩
    ∧ ([30, 20, 10] : List Nat) ≠ [10, 20, 30] := by
  constructor
  · rfl
  · decide

/-- C2 counterexample: a descriptor resolved by the numeric-channels
strategy whose exact product 16384*16384*3 exceeds the 500 MB cap is not
rejected with the capacity-exceeded error; the mismatch is caught only by
the post-allocation internal size check. -/
theorem C2_counterexample :
    524288000 < 16384 * 16384 * 3
    ∧ InputToMat ⟨.buf [0, 0, 0], .num 16384, .num 16384, .absent, .absent, .num 3⟩ =
        .error (internalMsg 805306368 3)
    ∧ internalMsg 805306368 3 ≠ capacityMsg 805306368 := by
  refine ⟨by decide, by rfl, by decide⟩

/-- C3 counterexample: a colorSpace-strategy descriptor whose resolved
byte count (16384*16384*3) differs from the 1-byte buffer fails with the
capacity message, which does not cite the actual buffer length (the digit
string "1" does not occur in it). -/
theorem C3_counterexample :
    InputToMat ⟨.buf [0], .num 16384, .num 16384, .absent, .str ("RGB"), .absent⟩ =
      .error (capacityMsg 805306368)
    ∧ ¬ (toString (1 : Nat)).data <:+: (capacityMsg 805306368).data := by
  refine ⟨by rfl, by decide⟩

/-- C4 counterexample: with `data` absent, the width=100000 descriptor is
rejected with the missing-data message, not the invalid-geometry message. -/
theorem C4_counterexample :
    InputToMat ⟨.absent, .num 100000, .num 100, .absent, .absent, .absent⟩ =
      .error (("Invalid image object: Missing required property 'data'"))
    ∧ ("Invalid image object: Missing required property 'data'" : String) ≠
        ("Image dimensions too large (max: 32768)") := by
  refine ⟨by rfl, by decide⟩

/-- C5 counterexample: with a valid colorSpace present, replacing the
absent `channels` field by a non-number-non-string value changes the
outcome from success to a validation error. -/
theorem C5_counterexample :
    InputToMat ⟨.buf [0], .num 1, .num 1, .absent, .str ("GRAY"), .absent⟩ =
      .ok ⟨1, 1, 1, [0]⟩
    ∧ InputToMat ⟨.buf [0], .num 1, .num 1, .absent, .str ("GRAY"), .other⟩ =
        .error ("Invalid image object: Property 'channels' must be a number or string")
    ∧ (Except.ok (⟨1, 1, 1, [0]⟩ : Mat) : Except String Mat) ≠
        .error ("Invalid image object: Property 'channels' must be a number or string") := by
  refine ⟨by rfl, by rfl, by simp⟩

/-- C6 counterexample: for a string-valued channels field whose trailing
underscore token is "RGB", normalization does not apply the RGB→BGR
permutation the claimed default assumption would entail: the 1×1 bytes
[10,20,30] come back unpermuted. -/
theorem C6_counterexample :
    InputToMat ⟨.buf [10, 20, 30], .num 1, .num 1, .absent, .absent, .str ("int8_RGB")⟩ =
      .ok ⟨1, 1, 3, [10, 20, 30]⟩
    ∧ ExtractChannelOrder ("int8_RGB") = ("RGB")
    ∧ ([10, 20, 30] : List Nat) ≠ swapRB3 [10, 20, 30] := by
  refine ⟨by rfl, by rfl, by decide⟩

/-- C10 counterexample: for the ZXing native point list TL=(0,0),
TR=(10,0), BR=(10,10), BL=(0,10), the adapter puts (10,0) — the top-right
corner — under the label (x1,y1), not the bottom-left corner (0,10) the
claimed x1..x4 = BL,BR,TR,TL labelling requires. -/
theorem C10_counterexample :
    zxingLabelPoints [(0, 0), (10, 0), (10, 10), (0, 10)] =
      ⟨10, 0, 0, 0, 0, 10, 10, 10⟩
    ∧ ¬ ((10 : Int), (0 : Int)) = ((0 : Int), (10 : Int)) := by
  refine ⟨by rfl, by decide⟩

/-- C10 amended: both adapters emit the winding bottom-left → bottom-right
→ top-right → top-left under the label sequence (x3,x4,x1,x2); ZXing's
native order (TL,TR,BR,BL) is remapped to that convention, and the two
adapters agree label-for-label exactly when ZBar's native point order lists
the same corners as (BL,BR,TR,TL) — the order the remap comment assumes. -/
theorem C10_winding_amended (sty sda : String) (pTL pTR pBR pBL : Int × Int) :
    zxingLabelPoints [pTL, pTR, pBR, pBL] =
      ⟨pTR.1, pTR.2, pTL.1, pTL.2, pBL.1, pBL.2, pBR.1, pBR.2⟩
    ∧ zbarLabelPoints ⟨sty, sda, pBL, pBR, pTR, pTL⟩ =
      ⟨pTR.1, pTR.2, pTL.1, pTL.2, pBL.1, pBL.2, pBR.1, pBR.2⟩ :=
  ⟨rfl, rfl⟩

/-- C4 amended: with `data` present as a buffer (of any content) and a
positive height, width=100000 is rejected with the invalid-geometry error
regardless of the optional fields. -/
theorem C4_geometry_amended (d : List Nat) (h : Int) (dt cs ch : JVal)
    (hdt : strLike dt = true) (hcs : strLike cs = true) (hch : chLike ch = true)
    (hh0 : 0 < h) (hh : h < 2147483648) :
    InputToMat ⟨.buf d, .num 100000, .num h, dt, cs, ch⟩ =
      .error ("Image dimensions too large (max: 32768)") := by
  rw [inputToMat_checked d 100000 h dt cs ch hdt hcs hch,
      int32wrap_eq_self (by omega) (by omega), int32wrap_eq_self (by omega) (by omega)]
  unfold rawToMat
  rw [if_neg (by omega), if_pos (by omega)]

/-- C4 amended witness. -/
theorem C4_geometry_amended_witness :
    InputToMat ⟨.buf [7], .num 100000, .num 100, .null, .null, .null⟩ =
      .error ("Image dimensions too large (max: 32768)") :=
  C4_geometry_amended [7] 100 .null .null .null (by decide) (by decide) (by decide)
    (by decide) (by decide)

/-- C6 amended: a string-valued channels field passes validation but its
value is never read: the descriptor is treated as 3-channel with an empty
order label (so no RGB→BGR permutation happens), succeeding exactly when
the buffer holds width*height*3 bytes and failing with the internal size
message otherwise. -/
theorem C6_string_channels_amended (d : List Nat) (w h : Int) (dt : JVal) (s : String)
    (hw0 : 0 < w) (hw : w ≤ 32768) (hh0 : 0 < h) (hh : h ≤ 32768)
    (hdt : dtypeCheck dt = .ok ()) :
    InputToMat ⟨.buf d, .num w, .num h, dt, .absent, .str s⟩ =
      (if h.toNat * w.toNat * 3 = d.length
       then .ok ⟨h.toNat, w.toNat, 3, d⟩
       else .error (internalMsg (h.toNat * w.toNat * 3) d.length)) := by
  have hdt' : strLike dt = true := by cases dt <;> simp_all [dtypeCheck, strLike]
  rw [inputToMat_checked d w h dt .absent (.str s) hdt' rfl rfl,
      int32wrap_eq_self (by omega) (by omega), int32wrap_eq_self (by omega) (by omega),
      rawToMat_pass d w h dt .absent (.str s) hw0 hw hh0 hh hdt]
  show finishMat d w h 3 ("") = _
  unfold finishMat
  rw [if_neg (Nat.mul_ne_zero (by omega) (by omega))]
  by_cases hlen : h.toNat * w.toNat * 3 = d.length
  · rw [if_pos hlen, if_neg (by simp [hlen]), if_neg (by decide), if_neg (by decide)]
  · rw [if_neg hlen, if_pos hlen]

/-- C6 amended witness. -/
theorem C6_string_channels_amended_witness :
    InputToMat ⟨.buf [10, 20, 30], .num 1, .num 1, .absent, .absent, .str ("int8_RGB")⟩ =
      (if (1 : Int).toNat * (1 : Int).toNat * 3 = [10, 20, 30].length
       then .ok ⟨(1 : Int).toNat, (1 : Int).toNat, 3, [10, 20, 30]⟩
       else .error (internalMsg ((1 : Int).toNat * (1 : Int).toNat * 3) [10, 20, 30].length)) :=
  C6_string_channels_amended [10, 20, 30] 1 1 .absent ("int8_RGB") (by decide) (by decide)
    (by decide) (by decide) rfl

/-- C2 amended: the 500 MB capacity check runs only when the colorSpace
strategy resolves the channel count; there it fires (on the 32-bit-wrapped
product) with the capacity message before the Mat is built. -/
theorem C2_capacity_amended (d : List Nat) (w h : Int) (dt ch : JVal) (s : String) (c : Nat)
    (hw0 : 0 < w) (hw : w ≤ 32768) (hh0 : 0 < h) (hh : h ≤ 32768)
    (hdt : dtypeCheck dt = .ok ()) (hch : chLike ch = true)
    (hcs : csToChannels s = some c)
    (hcap : 524288000 < w * h * (c : Int)) (hbound : w * h * (c : Int) < 2147483648) :
    InputToMat ⟨.buf d, .num w, .num h, dt, .str s, ch⟩ =
      .error (capacityMsg (w * h * (c : Int)).toNat) := by
  have hdt' : strLike dt = true := by cases dt <;> simp_all [dtypeCheck, strLike]
  have hnn : (0 : Int) ≤ w * h * (c : Int) := by positivity
  rw [inputToMat_checked d w h dt (.str s) ch hdt' rfl hch,
      int32wrap_eq_self (by omega) (by omega), int32wrap_eq_self (by omega) (by omega),
      rawToMat_pass d w h dt (.str s) ch hw0 hw hh0 hh hdt]
  have hres : resolveFormat d.length w h (.str s) ch =
      .error (capacityMsg (w * h * (c : Int)).toNat) := by
    rw [resolveFormat_str]
    unfold format1
    simp only [hcs]
    rw [int32wrap_eq_self (by omega) (by omega), toSizeT_eq_toNat (by omega) (by omega)]
    rw [if_pos (by omega)]
  rw [hres, applyFormat_error]

/-- C2 amended witness. -/
theorem C2_capacity_amended_witness :
    InputToMat ⟨.buf [], .num 16384, .num 16384, .absent, .str ("RGB"), .absent⟩ =
      .error (capacityMsg ((16384 : Int) * 16384 * ((3 : Nat) : Int)).toNat) :=
  C2_capacity_amended [] 16384 16384 .absent .absent ("RGB") 3 (by decide) (by decide)
    (by decide) (by decide) rfl (by decide) (by decide) (by decide) (by decide)

/-- C3 amended: whenever the resolved channel count (colorSpace strategy or
numeric-channels strategy) makes width*height*channels differ from the
buffer length, normalization fails; within the 500 MB cap the message cites
both byte counts (the colorSpace branch with its mismatch message, the
numeric branch with the internal Mat-size message), but a colorSpace-branch
product over the cap is rejected with the capacity message, which cites the
expected byte count and the cap instead of the buffer length.  (Products
are kept inside the 32-bit int range, where the C arithmetic is exact.) -/
theorem C3_size_mismatch_amended :
    (∀ (d : List Nat) (w h : Int) (s : String) (c : Nat) (dt ch : JVal),
      0 < w → w ≤ 32768 → 0 < h → h ≤ 32768 →
      dtypeCheck dt = .ok () → chLike ch = true →
      csToChannels s = some c → w * h * (c : Int) < 2147483648 →
      (d.length : Int) ≠ w * h * (c : Int) →
      InputToMat ⟨.buf d, .num w, .num h, dt, .str s, ch⟩ =
        (if 524288000 < w * h * (c : Int)
         then .error (capacityMsg (w * h * (c : Int)).toNat)
         else .error (mismatchMsg (w * h * (c : Int)).toNat w h c d.length)))
    ∧ (∀ (d : List Nat) (w h : Int) (c : Nat) (dt : JVal),
      0 < w → w ≤ 32768 → 0 < h → h ≤ 32768 →
      dtypeCheck dt = .ok () → (c = 1 ∨ c = 3 ∨ c = 4) →
      (d.length : Int) ≠ w * h * (c : Int) →
      InputToMat ⟨.buf d, .num w, .num h, dt, .absent, .num (c : Int)⟩ =
        .error (internalMsg (h.toNat * w.toNat * c) d.length)) := by
  constructor
  · intro d w h s c dt ch hw0 hw hh0 hh hdt hch hcs hbound hm
    have hdt' : strLike dt = true := by cases dt <;> simp_all [dtypeCheck, strLike]
    have hnn : (0 : Int) ≤ w * h * (c : Int) := by positivity
    rw [inputToMat_checked d w h dt (.str s) ch hdt' rfl hch,
        int32wrap_eq_self (by omega) (by omega), int32wrap_eq_self (by omega) (by omega),
        rawToMat_pass d w h dt (.str s) ch hw0 hw hh0 hh hdt, resolveFormat_str]
    unfold format1
    simp only [hcs]
    rw [int32wrap_eq_self (by omega) (by omega), toSizeT_eq_toNat (by omega) (by omega)]
    by_cases hcap : 524288000 < w * h * (c : Int)
    · rw [if_pos (by omega), if_pos hcap, applyFormat_error]
    · rw [if_neg (by omega), if_pos (by omega), if_neg hcap, applyFormat_error]
  · intro d w h c dt hw0 hw hh0 hh hdt hc hm
    have hdt' : strLike dt = true := by cases dt <;> simp_all [dtypeCheck, strLike]
    rw [inputToMat_checked d w h dt .absent (.num (c : Int)) hdt' rfl rfl,
        int32wrap_eq_self (by omega) (by omega), int32wrap_eq_self (by omega) (by omega),
        rawToMat_pass d w h dt .absent (.num (c : Int)) hw0 hw hh0 hh hdt,
        resolveFormat_numch]
    have hne : h.toNat * w.toNat * c ≠ d.length :=
      fun he => hm (he ▸ toNat_prod w h c (by omega) (by omega))
    have hfin : ∀ l : String, l ≠ ("RGB") → l ≠ ("RGBA") →
        finishMat d w h c l = .error (internalMsg (h.toNat * w.toNat * c) d.length) := by
      intro l _ _
      unfold finishMat
      rw [if_neg (Nat.mul_ne_zero (by omega) (by omega)), if_pos hne]
    rcases hc with rfl | rfl | rfl
    · rw [show format2num ((1 : Nat) : Int) = .ok (1, ("GRAY")) from rfl,
          applyFormat_ok, hfin ("GRAY") (by decide) (by decide)]
    · rw [show format2num ((3 : Nat) : Int) = .ok (3, ("RGB")) from rfl,
          applyFormat_ok]
      unfold finishMat
      rw [if_neg (Nat.mul_ne_zero (by omega) (by omega)), if_pos hne]
    · rw [show format2num ((4 : Nat) : Int) = .ok (4, ("RGBA")) from rfl,
          applyFormat_ok]
      unfold finishMat
      rw [if_neg (Nat.mul_ne_zero (by omega) (by omega)), if_pos hne]

/-- C3 amended witness. -/
theorem C3_size_mismatch_amended_witness :
    (InputToMat ⟨.buf [0, 1], .num 1, .num 1, .absent, .str ("GRAY"), .absent⟩ =
      (if 524288000 < (1 : Int) * 1 * ((1 : Nat) : Int)
       then .error (capacityMsg ((1 : Int) * 1 * ((1 : Nat) : Int)).toNat)
       else .error (mismatchMsg ((1 : Int) * 1 * ((1 : Nat) : Int)).toNat 1 1 1 [0, 1].length)))
    ∧ InputToMat ⟨.buf [0], .num 1, .num 1, .absent, .absent, .num ((3 : Nat) : Int)⟩ =
        .error (internalMsg ((1 : Int).toNat * (1 : Int).toNat * 3) [0].length) :=
  ⟨C3_size_mismatch_amended.1 [0, 1] 1 1 ("GRAY") 1 .absent .absent (by decide) (by decide)
      (by decide) (by decide) rfl (by decide) (by decide) (by decide) (by decide),
   C3_size_mismatch_amended.2 [0] 1 1 3 .absent (by decide) (by decide) (by decide)
      (by decide) rfl (by decide) (by decide)⟩

/-- C5 amended: (1) with colorSpace present as a string, the outcome is
unchanged under any alteration or removal of the channels field among the
values that pass the structural type check (absent, null, number, string);
(2) without colorSpace and with a numeric channels field, acceptance is
characterized by the channel value being 1, 3 or 4 and the buffer length
equalling width*height*channels exactly — the divisibility test of the
inference strategy is never consulted. -/
theorem C5_priority_amended :
    (∀ (d : List Nat) (w h : Int) (dt : JVal) (s : String) (ch ch' : JVal),
      chLike ch = true → chLike ch' = true →
      InputToMat ⟨.buf d, .num w, .num h, dt, .str s, ch⟩ =
        InputToMat ⟨.buf d, .num w, .num h, dt, .str s, ch'⟩)
    ∧ (∀ (d : List Nat) (w h n : Int),
      0 < w → w ≤ 32768 → 0 < h → h ≤ 32768 →
      -2147483648 ≤ n → n < 2147483648 →
      ((∃ m, InputToMat ⟨.buf d, .num w, .num h, .absent, .absent, .num n⟩ = .ok m) ↔
        ((n = 1 ∨ n = 3 ∨ n = 4) ∧ (d.length : Int) = w * h * n))) := by
  constructor
  · intro d w h dt s ch ch' hch hch'
    cases dt with
    | absent =>
        rw [inputToMat_checked d w h .absent (.str s) ch rfl rfl hch,
            inputToMat_checked d w h .absent (.str s) ch' rfl rfl hch']
        rfl
    | null =>
        rw [inputToMat_checked d w h .null (.str s) ch rfl rfl hch,
            inputToMat_checked d w h .null (.str s) ch' rfl rfl hch']
        rfl
    | str t =>
        rw [inputToMat_checked d w h (.str t) (.str s) ch rfl rfl hch,
            inputToMat_checked d w h (.str t) (.str s) ch' rfl rfl hch']
        rfl
    | buf b => rfl
    | num k => rfl
    | other => rfl
  · intro d w h n hw0 hw hh0 hh hn1 hn2
    rw [inputToMat_checked d w h .absent .absent (.num n) rfl rfl rfl,
        int32wrap_eq_self (by omega) (by omega), int32wrap_eq_self (by omega) (by omega),
        rawToMat_pass d w h .absent .absent (.num n) hw0 hw hh0 hh rfl,
        resolveFormat_numch]
    have hwrap : int32wrap n = n := int32wrap_eq_self (by omega) (by omega)
    unfold format2num
    rw [hwrap]
    have hfin : ∀ (c : Nat) (l : String), 0 < c →
        ((∃ m, applyFormat d w h (.ok (c, l)) = .ok m) ↔ h.toNat * w.toNat * c = d.length) := by
      intro c l hc
      rw [applyFormat_ok]
      unfold finishMat
      rw [if_neg (Nat.mul_ne_zero (by omega) (by omega))]
      by_cases hlen : h.toNat * w.toNat * c = d.length
      · rw [if_neg (by simp [hlen])]
        constructor
        · intro _; exact hlen
        · intro _
          by_cases hl1 : l = ("RGB")
          · rw [if_pos hl1]; exact ⟨_, rfl⟩
          · rw [if_neg hl1]
            by_cases hl2 : l = ("RGBA")
            · rw [if_pos hl2]; exact ⟨_, rfl⟩
            · rw [if_neg hl2]; exact ⟨_, rfl⟩
      · rw [if_pos hlen]
        constructor
        · rintro ⟨m, hm⟩; exact absurd hm (by simp)
        · intro hcon; exact absurd hcon hlen
    have hcast : ∀ c : Nat,
        (h.toNat * w.toNat * c = d.length) ↔ ((d.length : Int) = w * h * (c : Int)) := by
      intro c
      constructor
      · intro he; exact (he ▸ toNat_prod w h c (by omega) (by omega))
      · intro he
        have h2 := toNat_prod w h c (by omega : (0:Int) ≤ w) (by omega : (0:Int) ≤ h)
        omega
    by_cases hn : n = 1
    · subst hn
      rw [if_pos rfl]
      rw [hfin 1 ("GRAY") (by omega)]
      rw [hcast 1]
      simp
    · rw [if_neg hn]
      by_cases hn3 : n = 3
      · subst hn3
        rw [if_pos rfl]
        rw [hfin 3 ("RGB") (by omega)]
        rw [hcast 3]
        simp
      · rw [if_neg hn3]
        by_cases hn4 : n = 4
        · subst hn4
          rw [if_pos rfl]
          rw [hfin 4 ("RGBA") (by omega)]
          rw [hcast 4]
          simp
        · rw [if_neg hn4]
          constructor
          · rintro ⟨m, hm⟩
            exact absurd hm (by simp [applyFormat])
          · rintro ⟨hn', _⟩
            rcases hn' with rfl | rfl | rfl <;> simp_all

/-- C5 amended witness. -/
theorem C5_priority_amended_witness :
    InputToMat ⟨.buf [0], .num 1, .num 1, .absent, .str ("GRAY"), .num 3⟩ =
      InputToMat ⟨.buf [0], .num 1, .num 1, .absent, .str ("GRAY"), .absent⟩
    ∧ ((∃ m, InputToMat ⟨.buf [0, 0, 0], .num 1, .num 1, .absent, .absent, .num 3⟩ = .ok m) ↔
        (((3 : Int) = 1 ∨ (3 : Int) = 3 ∨ (3 : Int) = 4)
          ∧ (([0, 0, 0] : List Nat).length : Int) = 1 * 1 * 3)) :=
  ⟨C5_priority_amended.1 [0] 1 1 .absent ("GRAY") (.num 3) .absent rfl rfl,
   C5_priority_amended.2 [0, 0, 0] 1 1 3 (by decide) (by decide) (by decide) (by decide)
     (by decide) (by decide)⟩

lemma thresholdBinary_mem (g : List Nat) (t : Nat) :
    ∀ b ∈ thresholdBinary g t 255, b = 0 ∨ b = 255 := by
  intro b hb
  unfold thresholdBinary at hb
  rcases List.mem_map.mp hb with ⟨a, _, rfl⟩
  by_cases hgt : a > t
  · right; simp [hgt]
  · left; simp [hgt]

/-- C9: on every nonempty matrix with a supported channel count, the otsu
preprocessing returns a 1-channel matrix whose bytes are all exactly 0 or
255. -/
theorem C9_otsu_bivalued (m : Mat) (hm : m.empty = false)
    (hch : m.channels = 1 ∨ m.channels = 3 ∨ m.channels = 4) :
    (preprocess_otsu m).channels = 1
    ∧ ∀ b ∈ (preprocess_otsu m).data, b = 0 ∨ b = 255 := by
  unfold preprocess_otsu
  rw [if_neg (by simp [hm])]
  rcases hch with h1 | h3 | h4
  · rw [show grayData m = some m.data from by simp [grayData, h1]]
    exact ⟨rfl, thresholdBinary_mem _ _⟩
  · rw [show grayData m = some (gray3 m.data) from by simp [grayData, h3]]
    exact ⟨rfl, thresholdBinary_mem _ _⟩
  · rw [show grayData m = some (gray4 m.data) from by simp [grayData, h4]]
    exact ⟨rfl, thresholdBinary_mem _ _⟩

/-- C9 witness. -/
theorem C9_otsu_bivalued_witness :
    (preprocess_otsu ⟨1, 1, 3, [10, 20, 30]⟩).channels = 1
    ∧ ∀ b ∈ (preprocess_otsu ⟨1, 1, 3, [10, 20, 30]⟩).data, b = 0 ∨ b = 255 :=
  C9_otsu_bivalued ⟨1, 1, 3, [10, 20, 30]⟩ (by decide) (by decide)

lemma data_append (a b : String) : (a ++ b).data = a.data ++ b.data := rfl

lemma str_append_assoc (a b c : String) : (a ++ b) ++ c = a ++ (b ++ c) :=
  congrArg String.mk (List.append_assoc a.data b.data c.data)

lemma results_ne_err (t : String) : ("\x7b\"results\": [") ++ t ≠ grayscaleErrJson := by
  intro hEq
  have h2 : (("\x7b\"results\": [") ++ t).data = grayscaleErrJson.data := congrArg String.data hEq
  rw [data_append] at h2
  have h3 := congrArg (fun l => l[2]?) h2
  simp only at h3
  rw [List.getElem?_append_left (by decide)] at h3
  exact absurd h3 (by decide)

/-- C8: on every nonempty matrix, each decoder adapter returns the
structural error record exactly when the channel count differs from 1;
with one channel the output is a results record, and an empty detection
set serializes to the empty results record rather than an error. -/
theorem C8_decoder_structural (m : Mat) (hm : m.empty = false)
    (syms : List NativeSymbol) (zrs : List ZxResult) (th : Bool) :
    ((decode_zbar syms m = grayscaleErrJson) ↔ m.channels ≠ 1)
    ∧ ((decode_zxing zrs m th = grayscaleErrJson) ↔ m.channels ≠ 1)
    ∧ (m.channels = 1 →
        decode_zbar [] m = emptyResultsJson ∧ decode_zxing [] m th = emptyResultsJson)
    ∧ (m.channels = 1 →
        (∃ rest, decode_zbar syms m = ("\x7b\"results\": [") ++ rest)
        ∧ (∃ rest, decode_zxing zrs m th = ("\x7b\"results\": [") ++ rest)) := by
  have hzb : ∀ ss : List NativeSymbol, decode_zbar ss m =
      (if m.channels ≠ 1 then grayscaleErrJson
       else ("\x7b\"results\": [") ++ String.intercalate (",") (ss.map zbarObjJson) ++ ("]\x7d")) := by
    intro ss
    unfold decode_zbar
    rw [if_neg (by simp [hm])]
  have hzx : ∀ rs : List ZxResult, decode_zxing rs m th =
      (if m.channels ≠ 1 then grayscaleErrJson
       else ("\x7b\"results\": [") ++ String.intercalate (",") (rs.map zxObjJson) ++ ("]\x7d")) := by
    intro rs
    unfold decode_zxing
    rw [if_neg (by simp [hm])]
  by_cases hch : m.channels = 1
  · refine ⟨?_, ?_, ?_, ?_⟩
    · rw [hzb syms, if_neg (by simp [hch])]
      constructor
      · intro hc
        rw [str_append_assoc] at hc
        exact absurd hc (results_ne_err _)
      · intro hc; exact absurd hch hc
    · rw [hzx zrs, if_neg (by simp [hch])]
      constructor
      · intro hc
        rw [str_append_assoc] at hc
        exact absurd hc (results_ne_err _)
      · intro hc; exact absurd hch hc
    · intro _
      rw [hzb [], hzx [], if_neg (by simp [hch]), if_neg (by simp [hch])]
      exact ⟨rfl, rfl⟩
    · intro _
      rw [hzb syms, hzx zrs, if_neg (by simp [hch]), if_neg (by simp [hch])]
      exact ⟨⟨_, str_append_assoc _ _ _⟩, ⟨_, str_append_assoc _ _ _⟩⟩
  · refine ⟨?_, ?_, ?_, ?_⟩
    · rw [hzb syms, if_pos hch]
      simp [hch]
    · rw [hzx zrs, if_pos hch]
      simp [hch]
    · intro hc; exact absurd hc hch
    · intro hc; exact absurd hc hch

/-- C8 witness. -/
theorem C8_decoder_structural_witness :
    ((decode_zbar [] ⟨2, 2, 1, [0, 255, 255, 0]⟩ = grayscaleErrJson)
        ↔ (⟨2, 2, 1, [0, 255, 255, 0]⟩ : Mat).channels ≠ 1)
    ∧ ((decode_zxing [] ⟨2, 2, 1, [0, 255, 255, 0]⟩ true = grayscaleErrJson)
        ↔ (⟨2, 2, 1, [0, 255, 255, 0]⟩ : Mat).channels ≠ 1)
    ∧ ((⟨2, 2, 1, [0, 255, 255, 0]⟩ : Mat).channels = 1 →
        decode_zbar [] ⟨2, 2, 1, [0, 255, 255, 0]⟩ = emptyResultsJson
        ∧ decode_zxing [] ⟨2, 2, 1, [0, 255, 255, 0]⟩ true = emptyResultsJson)
    ∧ ((⟨2, 2, 1, [0, 255, 255, 0]⟩ : Mat).channels = 1 →
        (∃ rest, decode_zbar [] ⟨2, 2, 1, [0, 255, 255, 0]⟩ = ("\x7b\"results\": [") ++ rest)
        ∧ (∃ rest, decode_zxing [] ⟨2, 2, 1, [0, 255, 255, 0]⟩ true
            = ("\x7b\"results\": [") ++ rest)) :=
  C8_decoder_structural ⟨2, 2, 1, [0, 255, 255, 0]⟩ (by decide) [] [] true

lemma finishMat_ok_cases (d : List Nat) (w h : Int) (mc : Nat) (l : String) (m : Mat)
    (hok : finishMat d w h mc l = .ok m) :
    m.rows = h.toNat ∧ m.cols = w.toNat ∧ m.channels = mc
    ∧ h.toNat * w.toNat * mc = d.length
    ∧ m.data = (if l = ("RGB") then swapRB3 d else if l = ("RGBA") then swapRB4 d else d) := by
  unfold finishMat at hok
  split at hok
  · exact absurd hok (by simp)
  · split at hok
    · exact absurd hok (by simp)
    · rename_i hne
      split at hok
      · rename_i hrgb
        cases hok
        exact ⟨rfl, rfl, rfl, by omega, by rw [if_pos hrgb]⟩
      · rename_i hrgb
        split at hok
        · rename_i hrgba
          cases hok
          exact ⟨rfl, rfl, rfl, by omega, by rw [if_neg hrgb, if_pos hrgba]⟩
        · rename_i hrgba
          cases hok
          exact ⟨rfl, rfl, rfl, by omega, by rw [if_neg hrgb, if_neg hrgba]⟩

lemma rawToMat_ok_shape (d : List Nat) (W H : Int) (dt cs ch : JVal) (m : Mat)
    (hok : rawToMat d W H dt cs ch = .ok m) :
    0 < W ∧ 0 < H
    ∧ m.rows = H.toNat ∧ m.cols = W.toNat
    ∧ m.rows * m.cols * m.channels = d.length ∧ m.data.length = d.length
    ∧ ∃ l, resolveFormat d.length W H cs ch = .ok (m.channels, l)
        ∧ m.data = (if l = ("RGB") then swapRB3 d else if l = ("RGBA") then swapRB4 d else d) := by
  unfold rawToMat at hok
  split at hok
  · exact absurd hok (by simp)
  · rename_i hgeom
    split at hok
    · exact absurd hok (by simp)
    · split at hok
      · exact absurd hok (by simp)
      · cases hres : resolveFormat d.length W H cs ch with
        | error e =>
            rw [hres, applyFormat_error] at hok
            exact absurd hok (by simp)
        | ok p =>
            obtain ⟨mc, l⟩ := p
            rw [hres, applyFormat_ok] at hok
            have hf := finishMat_ok_cases d W H mc l m hok
            refine ⟨by omega, by omega, hf.1, hf.2.1, ?_, ?_, ⟨l, ?_, hf.2.2.2.2⟩⟩
            · rw [hf.1, hf.2.1, hf.2.2.1]
              exact hf.2.2.2.1
            · rw [hf.2.2.2.2]
              split
              · exact swapRB3_length d
              · split
                · exact swapRB4_length d
                · rfl
            · rw [hf.2.2.1]

lemma inputToMat_ok_shape (d : List Nat) (w h : Int) (dt cs ch : JVal) (m : Mat)
    (hok : InputToMat ⟨.buf d, .num w, .num h, dt, cs, ch⟩ = .ok m) :
    0 < int32wrap w ∧ 0 < int32wrap h
    ∧ m.rows = (int32wrap h).toNat ∧ m.cols = (int32wrap w).toNat
    ∧ m.rows * m.cols * m.channels = d.length ∧ m.data.length = d.length
    ∧ ∃ l, resolveFormat d.length (int32wrap w) (int32wrap h) cs ch = .ok (m.channels, l)
        ∧ m.data = (if l = ("RGB") then swapRB3 d else if l = ("RGBA") then swapRB4 d else d) := by
  unfold InputToMat at hok
  split at hok
  · exact absurd hok (by simp)
  · exact rawToMat_ok_shape d (int32wrap w) (int32wrap h) dt cs ch m hok

/-- C1 amended: every accepted raw descriptor round-trips through Convert
with its width, height and byte count intact; with (mc, l) the channel
count and order label the disambiguation resolves for the descriptor, the
returned bytes are exactly the input bytes permuted by the per-pixel
first/third channel swap when l is RGB (3-channel form) or RGBA (4-channel
form) and exactly the input bytes otherwise; and the returned colorSpace
field is the input's declared label when colorSpace is present, else the
default label inferred from the resolved channel count (1→GRAY, 3→RGB,
4→RGBA) — in neither case the effective order of the bytes actually
returned. -/
theorem C1_roundtrip_amended (d : List Nat) (w h : Int) (dt cs ch : JVal) (r : RawOut)
    (hw1 : -2147483648 ≤ w) (hw2 : w < 2147483648)
    (hh1 : -2147483648 ≤ h) (hh2 : h < 2147483648)
    (hok : convertToMat ⟨.buf d, .num w, .num h, dt, cs, ch⟩ = .ok r) :
    (r.width : Int) = w ∧ (r.height : Int) = h
    ∧ r.data.length = d.length
    ∧ r.dtype = ("uint8")
    ∧ ∃ mc l, resolveFormat d.length w h cs ch = .ok (mc, l)
        ∧ r.data = (if l = ("RGB") then swapRB3 d else if l = ("RGBA") then swapRB4 d else d)
        ∧ (∀ s, cs = .str s → r.colorSpace = s)
        ∧ (cs = .absent → r.colorSpace =
            (if mc = 1 then ("GRAY") else if mc = 3 then ("RGB")
             else if mc = 4 then ("RGBA") else ("RGB"))) := by
  unfold convertToMat at hok
  split at hok
  · exact absurd hok (by simp)
  · rename_i m heq
    have hs := inputToMat_ok_shape d w h dt cs ch m heq
    rw [int32wrap_eq_self hw1 hw2, int32wrap_eq_self hh1 hh2] at hs
    obtain ⟨l, hres, hdata⟩ := hs.2.2.2.2.2.2
    injection hok with h2
    subst h2
    refine ⟨?_, ?_, hs.2.2.2.2.2.1, rfl, m.channels, l, hres, hdata, ?_, ?_⟩
    · show ((m.cols : Nat) : Int) = w
      rw [hs.2.2.2.1]
      exact Int.toNat_of_nonneg (by omega)
    · show ((m.rows : Nat) : Int) = h
      rw [hs.2.2.1]
      exact Int.toNat_of_nonneg (by omega)
    · intro s hcs
      subst hcs
      rfl
    · intro hcs
      subst hcs
      rfl

/-- C1 amended witness. -/
theorem C1_roundtrip_amended_witness :
    ((⟨1, 1, ("RGB"), ("uint8"), [30, 20, 10]⟩ : RawOut).width : Int) = 1
    ∧ ((⟨1, 1, ("RGB"), ("uint8"), [30, 20, 10]⟩ : RawOut).height : Int) = 1
    ∧ (⟨1, 1, ("RGB"), ("uint8"), [30, 20, 10]⟩ : RawOut).data.length = [10, 20, 30].length
    ∧ (⟨1, 1, ("RGB"), ("uint8"), [30, 20, 10]⟩ : RawOut).dtype = ("uint8")
    ∧ ∃ mc l, resolveFormat [10, 20, 30].length 1 1 (.str ("RGB")) .absent = .ok (mc, l)
        ∧ (⟨1, 1, ("RGB"), ("uint8"), [30, 20, 10]⟩ : RawOut).data =
            (if l = ("RGB") then swapRB3 [10, 20, 30]
             else if l = ("RGBA") then swapRB4 [10, 20, 30] else [10, 20, 30])
        ∧ (∀ s, (JVal.str ("RGB")) = JVal.str s
            → (⟨1, 1, ("RGB"), ("uint8"), [30, 20, 10]⟩ : RawOut).colorSpace = s)
        ∧ ((JVal.str ("RGB")) = JVal.absent
            → (⟨1, 1, ("RGB"), ("uint8"), [30, 20, 10]⟩ : RawOut).colorSpace =
                (if mc = 1 then ("GRAY") else if mc = 3 then ("RGB")
                 else if mc = 4 then ("RGBA") else ("RGB"))) :=
  C1_roundtrip_amended [10, 20, 30] 1 1 .absent (.str ("RGB")) .absent
    ⟨1, 1, ("RGB"), ("uint8"), [30, 20, 10]⟩
    (by decide) (by decide) (by decide) (by decide) (by rfl)
